import Mathlib

/-!
Verification of the chat-widget client scripts of this repository.

The repository holds five near-duplicate client scripts:
* `AppChat`   — src/app_chat/static/js/script.js
* `StaticV1`  — src/static/script.js, first script (plain `appendMessage` variant)
* `StaticV2`  — src/static/script.js, second script (render-html-toggle variant)
* `StaticJs`  — src/static/js/script.js (multi-match variant with `showAnswer`)
* `Part000`   — src/unnamed/part_000 (toggle variant posting to "/chat")

Strings are embedded as `List Char` so that every operation is a plain
computable function and concrete runs are decidable.  Each variant's
`sendMessage` is embedded as a pure state transformer on a `UI` record,
parameterised by the outcome of the single `fetch` round trip.
-/

/-- Character-list strings: the embedding works on `List Char` so every
string operation is structurally recursive and decidable. -/
abbrev Str := List Char

/-- Coerce a Lean string literal to the `List Char` representation. -/
def str (s : String) : Str := s.data

/-- The whitespace characters removed by JavaScript `String.prototype.trim`
(the ones relevant here: space, tab, LF, CR, VT, FF, NBSP, BOM). -/
def isJsSpace (c : Char) : Bool :=
  c = ' ' || c = '\t' || c = '\n' || c = '\r' || c = '\x0b' || c = '\x0c' ||
  c = ' ' || c = '﻿'

/-- JavaScript `s.trim()`: strip leading and trailing whitespace. -/
def trimStr (s : Str) : Str :=
  ((s.dropWhile isJsSpace).reverse.dropWhile isJsSpace).reverse

/-- JavaScript `s.replace(/pat/g, rep)` for a single-character pattern.
Every `.replace` call in the repository uses a one-character regex
(`/&/g`, `/</g`, `/>/g`, `/"/g`, `/'/g`, `/\n/g`), so the global replace
is exactly a per-character substitution scan. -/
def replaceAll : Str → Char → Str → Str
  | [], _, _ => []
  | c :: rest, pat, rep =>
    (if c = pat then rep else [c]) ++ replaceAll rest pat rep

/-- `escapeHtml` as written identically in src/app_chat/static/js/script.js,
src/static/js/script.js, the second script of src/static/script.js and
src/unnamed/part_000: chained global replaces, ampersand first. -/
def escapeHtml (u : Str) : Str :=
  replaceAll
    (replaceAll
      (replaceAll
        (replaceAll
          (replaceAll u '&' (str "&amp;"))
          '<' (str "&lt;"))
        '>' (str "&gt;"))
      '"' (str "&quot;"))
    '\x27' (str "&#039;")

/-- Specification-side character map: what a correct HTML escaper does to a
single character.  Used to state what `escapeHtml` achieves. -/
def escChar (c : Char) : Str :=
  if c = '&' then str "&amp;"
  else if c = '<' then str "&lt;"
  else if c = '>' then str "&gt;"
  else if c = '"' then str "&quot;"
  else if c = '\x27' then str "&#039;"
  else [c]

/-- Specification-side character map for rendered user text: entity-escape
the five special characters and turn each newline into a line break. -/
def userEscChar (c : Char) : Str :=
  if c = '\n' then str "<br>\n" else escChar c

/-- Decimal digits of a natural number, most significant first; the
first argument is structural fuel (any amount at least the digit count
gives the same result, and `natToStr` supplies enough). -/
def natToStrAux : Nat → Nat → Str
  | 0, _ => []
  | fuel + 1, n =>
    if n < 10 then [Char.ofNat (48 + n)]
    else natToStrAux fuel (n / 10) ++ [Char.ofNat (48 + n % 10)]

/-- Decimal digits of a natural number, most significant first. -/
def natToStr (n : Nat) : Str := natToStrAux (n + 1) n

/-- JavaScript numbers (the `confidence` scores) modelled as
unnormalised rationals — numerator over positive denominator — so that
all arithmetic is plain structural computation. -/
structure JsNum where
  num : Int
  den : Nat := 1
deriving DecidableEq, Repr

instance (n : Nat) : OfNat JsNum n := ⟨⟨n, 1⟩⟩

instance : Mul JsNum := ⟨fun a b => ⟨a.num * b.num, a.den * b.den⟩⟩

/-- JavaScript `x.toFixed(1)`: round `x` to the nearest tenth (ties away
from zero for the non-negative values that occur here) and print with
exactly one fractional digit.  `⌊x·10 + 1/2⌋` is computed on the raw
numerator/denominator as `(20·num + den) fdiv (2·den)`. -/
def toFixed1 (v : JsNum) : Str :=
  let n : Int := Int.fdiv (20 * v.num + v.den) (2 * v.den)
  let sign : Str := if n < 0 then str "-" else []
  let a := n.natAbs
  sign ++ natToStr (a / 10) ++ str "." ++ natToStr (a % 10)

/-- JavaScript `a || d` for an optional string field: the default is used
when the field is absent (`undefined`) or the empty string (falsy). -/
def jsOrStr (a : Option Str) (d : Str) : Str :=
  match a with
  | none => d
  | some s => if s = [] then d else s

/-- JavaScript coercion of a possibly-`undefined` string field used in a
template literal or `innerHTML` assignment: `undefined` prints as
"undefined". -/
def jsUndef (a : Option Str) : Str :=
  match a with
  | none => str "undefined"
  | some s => s

/-- `Array.prototype.join(sep)`. -/
def joinSep (sep : Str) : List Str → Str
  | [] => []
  | [x] => x
  | x :: xs => x ++ sep ++ joinSep sep xs

/-- One rendered `.message` element of the transcript: the row class
("user"/"bot"), its `innerHTML`, and an optional confidence annotation
div attached to the same message row (`appendConfidence`). -/
structure DomNode where
  sender : String
  html : Str
  note : Option Str := none
deriving DecidableEq, Repr

/-- The client-visible UI state: the transcript container `#messages`, the
`#input` field's value and disabled flag, the `#send-btn` disabled flag,
and whether the input currently has focus. -/
structure UI where
  transcript : List DomNode
  inputValue : Str
  inputDisabled : Bool
  sendDisabled : Bool
  inputFocused : Bool
deriving DecidableEq, Repr

/-- One element of a `top_matches` response array:
`{ keyword, confidence, answer }`. -/
structure MatchItem where
  keyword : Str
  confidence : JsNum
  answer : Str
deriving DecidableEq, Repr

/-- Default `MatchItem` used for total list indexing in the embedding. -/
def mDflt : MatchItem := ⟨[], 0, []⟩

/-- A clickable answer button child of a bot message node: its
`data-index` (or captured index) and its label `innerHTML`. -/
structure BtnSpec where
  index : Nat
  label : Str
deriving DecidableEq, Repr

/-- Default `BtnSpec` used for total list indexing in the embedding. -/
def bDflt : BtnSpec := ⟨0, []⟩

/-- Outcome of the single `fetch` round trip as observed by the client:
either the promise rejects (network failure), or a response arrives with
an `ok` flag and a body that parses to `α` (or fails to parse). -/
inductive HttpResult (α : Type) where
  | netFail : HttpResult α
  | response (ok : Bool) (body : Option α) : HttpResult α
deriving DecidableEq, Repr

/-- Overwrite the `innerHTML` of the transcript node at index `i`
(the `typingNode.innerHTML = ...` assignments). -/
def setHtml : List DomNode → Nat → Str → List DomNode
  | [], _, _ => []
  | n :: rest, 0, h => { n with html := h } :: rest
  | n :: rest, i + 1, h => n :: setHtml rest i h

/-- Attach a confidence annotation to the message row of the transcript
node at index `i` (the `appendConfidence` DOM append). -/
def setNote : List DomNode → Nat → Str → List DomNode
  | [], _, _ => []
  | n :: rest, 0, t => { n with note := some t } :: rest
  | n :: rest, i + 1, t => n :: setNote rest i t

/-- Number of pending "Typing..." bot placeholders in a transcript. -/
def pendingCount (ms : List DomNode) : Nat :=
  ms.countP (fun n => n.sender == "bot" && n.html == str "Typing...")

/-- `Array.prototype.map((m, i) => ...)` over a match list, producing the
button specs in order; `k` is the index of the first element. -/
def buttonsFromLabel (lab : Nat → MatchItem → Str) : Nat → List MatchItem → List BtnSpec
  | _, [] => []
  | k, m :: rest => ⟨k, lab k m⟩ :: buttonsFromLabel lab (k + 1) rest

/-- A bot message node together with its live clickable button children
(an `innerHTML` assignment to the node destroys the children). -/
structure NodeView where
  html : Str
  buttons : List BtnSpec
deriving DecidableEq, Repr

namespace AppChat

/-- Parsed JSON body used by src/app_chat/static/js/script.js:
`data.pdf_name` and `data.top_matches`, each possibly absent. -/
structure ChatData where
  pdf_name : Option Str
  top_matches : Option (List MatchItem)
deriving DecidableEq, Repr

/-- POST body of src/app_chat/static/js/script.js: `{ query, url }`. -/
structure Req where
  query : Str
  url : Str
deriving DecidableEq, Repr

/-- The fixed PDF URL constant of src/app_chat/static/js/script.js. -/
def PDF_URL : Str := str "https://renaicon.in/course_details_api"

/-- Content placed into a `.message` element by `appendMessageNode`
(src/app_chat/static/js/script.js lines 39-50): bot content verbatim,
user content escaped with newlines turned into `<br>`. -/
def renderContent (textHTML : Str) (sender : String) : Str :=
  if sender = "bot" then textHTML
  else replaceAll (escapeHtml textHTML) '\n' (str "<br>\n")

/-- `appendMessageNode` seen as a transcript update: clone the row
template, fill the `.message` element, append to `#messages`. -/
def appendMessageNode (st : UI) (textHTML : Str) (sender : String) : UI :=
  { st with transcript :=
      st.transcript ++ [{ sender := sender, html := renderContent textHTML sender }] }

/-- The fixed connectivity-error message of the `catch` branch. -/
def errorMsg : Str := str "⚠️ Unable to connect to the server."

/-- The fixed zero-match message of the `else` branch. -/
def noAnswerMsg : Str := str "❌ No relevant answer found for your question."

/-- Label (`innerHTML`) of the `i`-th answer button, from the template
literal at lines 103-105: rank `i+1`, keyword, confidence as a
one-decimal percentage, with the literal's whitespace. -/
def buttonLabel (i : Nat) (m : MatchItem) : Str :=
  str "\n              " ++ natToStr (i + 1) ++ str ". " ++ m.keyword ++
  str " (" ++ toFixed1 (m.confidence * 100) ++ str "%)\n            "

/-- The full `<button>` element HTML for one match. -/
def buttonHtml (b : BtnSpec) : Str :=
  str "<button class=\"answer-btn\" data-index=\"" ++ natToStr b.index ++
  str "\">" ++ b.label ++ str "</button>"

/-- `data.top_matches.map((m, i) => ...)`: the answer buttons in order. -/
def buttonsOf (l : List MatchItem) : List BtnSpec :=
  buttonsFromLabel buttonLabel 0 l

/-- The `typingNode.innerHTML` template of the success-with-matches
branch (lines 96-108): PDF name header, then the buttons joined by
`<br>`. -/
def matchesHtml (d : ChatData) (l : List MatchItem) : Str :=
  str "\n      <b>📄 PDF:</b> " ++ jsUndef d.pdf_name ++
  str "<br>\n      <b>🔍 Top Matches:</b><br><br>\n      " ++
  joinSep (str "<br>") ((buttonsOf l).map buttonHtml) ++ str "\n    "

/-- The answer HTML written on a button click (lines 115-118). -/
def answerHtml (m : MatchItem) : Str :=
  str "\n          <b>📘 " ++ m.keyword ++ str "</b><br><br>\n          " ++
  m.answer ++ str "\n        "

/-- The typing node after the success-with-matches branch: the match
list HTML with the `.answer-btn` children live. -/
def renderMatches (d : ChatData) (l : List MatchItem) : NodeView :=
  ⟨matchesHtml d l, buttonsOf l⟩

/-- The click handler of lines 111-120: read `data-index`, look up
`data.top_matches[index]`, and assign `e.target.parentElement.innerHTML`
— the parent is the typing node itself, so the assignment replaces the
whole container content and destroys every button child. -/
def clickAnswer (tm : List MatchItem) (v : NodeView) (i : Nat) : NodeView :=
  if i ∈ v.buttons.map BtnSpec.index then
    ⟨answerHtml (tm.getD i mDflt), []⟩
  else v

/-- State after the code that runs before `fetch` (lines 72-81): disable
the controls, append the user message, clear the input, append the
"Typing..." placeholder. -/
def preRequest (st : UI) (input : Str) : UI :=
  let st1 := { st with inputDisabled := true, sendDisabled := true }
  let st2 := appendMessageNode st1 input "user"
  let st3 := { st2 with inputValue := [] }
  appendMessageNode st3 (str "Typing...") "bot"

/-- The `innerHTML` written into the typing node by the branch taken for
a given round-trip outcome (lines 93-128): a rejected fetch, a non-ok
status (which throws) and a JSON parse failure all reach the `catch`;
otherwise the `top_matches` check picks the match list or the
zero-match message.  (`if (!res.ok) throw` is the `.response false _`
pattern; a failing `res.json()` is the `.response true none` pattern.) -/
def resolvedHtml (out : HttpResult ChatData) : Str :=
  match out with
  | .netFail => errorMsg
  | .response false _ => errorMsg
  | .response true none => errorMsg
  | .response true (some data) =>
    match data.top_matches with
    | some l => if 0 < l.length then matchesHtml data l else noAnswerMsg
    | none => noAnswerMsg

/-- Write the resolved content into the typing node (the last
transcript node, the one `appendMessageNode` returned). -/
def resolve (st : UI) (out : HttpResult ChatData) : UI :=
  { st with transcript :=
      setHtml st.transcript (st.transcript.length - 1) (resolvedHtml out) }

/-- `sendMessage` (lines 68-134) as a pure transformer: returns the new
UI state and the POST body issued, if any.  The trailing record update
is the `finally` block: re-enable both controls and refocus the input. -/
def sendMessage (st : UI) (out : HttpResult ChatData) : UI × Option Req :=
  let input := trimStr st.inputValue
  if input = [] then (st, none)
  else
    let stP := preRequest st input
    let stR := resolve stP out
    ({ stR with inputDisabled := false, sendDisabled := false, inputFocused := true },
     some { query := input, url := PDF_URL })

end AppChat

/-- Parsed JSON body used by the single-answer variants (first script of
src/static/script.js, second script of src/static/script.js, and
src/unnamed/part_000): `data.answer` and `data.confidence`, each
possibly absent. -/
structure AnswerData where
  answer : Option Str
  confidence : Option JsNum
deriving DecidableEq, Repr

/-- Overwrite the `innerHTML` of the first bot node of a list
(recursion helper for `setLastBotHtml`). -/
def setFirstBot : List DomNode → Str → List DomNode
  | [], _ => []
  | n :: rest, h =>
    if n.sender = "bot" then { n with html := h } :: rest
    else n :: setFirstBot rest h

/-- `querySelectorAll(".bot-row .message")` followed by writing the last
element's `innerHTML`: overwrite the last bot node of the transcript. -/
def setLastBotHtml (ms : List DomNode) (h : Str) : List DomNode :=
  (setFirstBot ms.reverse h).reverse

namespace StaticV1

/-- POST body of the first script of src/static/script.js:
`{ question }`. -/
structure Req where
  question : Str
deriving DecidableEq, Repr

/-- `appendMessage` (src/static/script.js lines 13-20): the text is
assigned to `.message`'s `innerHTML` verbatim for BOTH senders — no
escaping anywhere in this variant. -/
def appendMessage (st : UI) (text : Str) (sender : String) : UI :=
  { st with transcript := st.transcript ++ [{ sender := sender, html := text }] }

/-- The fixed connectivity-error message of the `catch` branch. -/
def errorMsg : Str := str "⚠️ Unable to connect to server. Please try again later."

/-- `sendMessage` (src/static/script.js lines 25-52): no disabling of
controls, no `res.ok` check — any response whose body parses as JSON has
`data.answer` written into the last bot node, whatever the status. -/
def sendMessage (st : UI) (out : HttpResult AnswerData) : UI × Option Req :=
  let input := trimStr st.inputValue
  if input = [] then (st, none)
  else
    let st1 := appendMessage st input "user"
    let st2 := { st1 with inputValue := [] }
    let st3 := appendMessage st2 (str "Typing...") "bot"
    let st4 :=
      match out with
      | .netFail => { st3 with transcript := setLastBotHtml st3.transcript errorMsg }
      | .response _ body =>
        match body with
        | none => { st3 with transcript := setLastBotHtml st3.transcript errorMsg }
        | some data =>
          { st3 with transcript := setLastBotHtml st3.transcript (jsUndef data.answer) }
    (st4, some { question := input })

end StaticV1

namespace StaticV2

/-- POST body of the second script of src/static/script.js:
`{ question }`. -/
structure Req where
  question : Str
deriving DecidableEq, Repr

/-- `appendMessageNode` of the second script of src/static/script.js
(lines 71-80): the caller-supplied HTML is assigned verbatim for both
senders; escaping happens at the user-message call site. -/
def appendMessageNode (st : UI) (textHTML : Str) (sender : String) : UI :=
  { st with transcript := st.transcript ++ [{ sender := sender, html := textHTML }] }

/-- The fixed connectivity-error message of the `catch` branch. -/
def errorMsg : Str := str "⚠️ Unable to connect to the server. Please try again later."

/-- The `appendConfidence` annotation text (line 87). -/
def confNote (c : JsNum) : Str :=
  str "Confidence: " ++ toFixed1 (c * 100) ++ str "%"

/-- State after the code that runs before `fetch` (lines 94-101):
disable the controls, append the user message with the input escaped at
the call site, clear the input, append the "Typing..." placeholder. -/
def preRequest (st : UI) (input : Str) : UI :=
  let st1 := { st with inputDisabled := true, sendDisabled := true }
  let st2 := appendMessageNode st1 (replaceAll (escapeHtml input) '\n' (str "<br>\n")) "user"
  let st3 := { st2 with inputValue := [] }
  appendMessageNode st3 (str "Typing...") "bot"

/-- Resolution of the round trip (lines 103-134): non-ok status throws,
parse failure throws, both land in `catch`; on success the
render-html-toggle is read but BOTH branches assign the same
`data.answer || "No answer returned."`, and a numeric confidence adds
an annotation to the typing node's row. -/
def resolve (toggle : Bool) (st : UI) (out : HttpResult AnswerData) : UI :=
  let idx := st.transcript.length - 1
  match out with
  | .netFail => { st with transcript := setHtml st.transcript idx errorMsg }
  | .response false _ => { st with transcript := setHtml st.transcript idx errorMsg }
  | .response true none => { st with transcript := setHtml st.transcript idx errorMsg }
  | .response true (some data) =>
    let renderHtml := toggle
    let st1 :=
      if renderHtml then
        { st with transcript :=
            setHtml st.transcript idx (jsOrStr data.answer (str "No answer returned.")) }
      else
        { st with transcript :=
            setHtml st.transcript idx (jsOrStr data.answer (str "No answer returned.")) }
    match data.confidence with
    | some c => { st1 with transcript := setNote st1.transcript idx (confNote c) }
    | none => st1

/-- `sendMessage` of the second script of src/static/script.js
(lines 93-135); `toggle` is the value of
`renderToggle && renderToggle.checked`. -/
def sendMessage (toggle : Bool) (st : UI) (out : HttpResult AnswerData) : UI × Option Req :=
  let input := trimStr st.inputValue
  if input = [] then (st, none)
  else
    let stP := preRequest st input
    let stR := resolve toggle stP out
    ({ stR with inputDisabled := false, sendDisabled := false, inputFocused := true },
     some { question := input })

end StaticV2

namespace StaticJs

/-- Parsed JSON body used by src/static/js/script.js:
`data.top_matches`, possibly absent. -/
structure ChatData where
  top_matches : Option (List MatchItem)
deriving DecidableEq, Repr

/-- POST body of src/static/js/script.js: `{ query, pdf_url }`. -/
structure Req where
  query : Str
  pdf_url : Str
deriving DecidableEq, Repr

/-- The fixed PDF URL constant of src/static/js/script.js. -/
def PDF_URL : Str :=
  str "https://renaicon.in/storage/syllabus/images/A8YRAiNXEIX05H33IQbtVVyUd3HKCO9LjQ8FJBLG.pdf"

/-- Content placed into a `.message` element by `appendMessageNode`
(src/static/js/script.js lines 42-53): bot content verbatim, user
content escaped with newlines turned into `<br>`. -/
def renderContent (textHTML : Str) (sender : String) : Str :=
  if sender = "bot" then textHTML
  else replaceAll (escapeHtml textHTML) '\n' (str "<br>\n")

/-- `appendMessageNode` seen as a transcript update. -/
def appendMessageNode (st : UI) (textHTML : Str) (sender : String) : UI :=
  { st with transcript :=
      st.transcript ++ [{ sender := sender, html := renderContent textHTML sender }] }

/-- The fixed connectivity-error message of the `catch` branch. -/
def errorMsg : Str := str "⚠️ Unable to connect to the server."

/-- The fixed zero-match message of the `else` branch. -/
def noAnswerMsg : Str := str "❌ No relevant answer found."

/-- The header written into the typing node before the buttons are
appended (line 101). -/
def headerHtml : Str := str "<b>✅ Found related topics:</b><br><br>"

/-- `btn.innerHTML` of the `i`-th match button (lines 106-108): rank
`i+1`, keyword, confidence as a one-decimal percentage. -/
def buttonLabel (i : Nat) (m : MatchItem) : Str :=
  str "<b>Match " ++ natToStr (i + 1) ++ str ":</b> " ++ m.keyword ++
  str " <small>(" ++ toFixed1 (m.confidence * 100) ++ str "%)</small>"

/-- `data.top_matches.forEach((match, index) => ...)`: the match
buttons appended as children of the typing node, in order; button `i`
has `onclick = () => showAnswer(match, index)` capturing match `i`. -/
def buttonsOf (l : List MatchItem) : List BtnSpec :=
  buttonsFromLabel buttonLabel 0 l

/-- The typing node after the success-with-matches branch: the header
HTML with the `.match-btn` children live (the buttons and `<br>`
separators are DOM children created by `createElement`/`appendChild`;
they are modelled by the `buttons` field). -/
def renderMatches (l : List MatchItem) : NodeView :=
  ⟨headerHtml, buttonsOf l⟩

/-- The message HTML of the bot row created by `showAnswer`
(lines 150-153): rank, keyword, then the match's answer — or the
"No snippet found" fallback when the answer is falsy (empty). -/
def showAnswerHtml (m : MatchItem) (i : Nat) : Str :=
  str "\n    <b>Match " ++ natToStr (i + 1) ++ str ":</b> " ++ m.keyword ++
  str "<br><br>\n    " ++
  (if m.answer = [] then str "<i>No snippet found</i>" else m.answer) ++
  str "\n  "

/-- `showAnswer(match, index)` (lines 131-161): build a fresh bot
message row and append it to `#messages`; nothing already in the
transcript is touched. -/
def showAnswer (ms : List DomNode) (m : MatchItem) (i : Nat) : List DomNode :=
  ms ++ [{ sender := "bot", html := showAnswerHtml m i }]

/-- Clicking the `i`-th match button: the handler captured match `i`
and its index, and calls `showAnswer`. -/
def clickMatch (l : List MatchItem) (ms : List DomNode) (i : Nat) : List DomNode :=
  showAnswer ms (l.getD i mDflt) i

/-- State after the code that runs before `fetch` (lines 72-85). -/
def preRequest (st : UI) (input : Str) : UI :=
  let st1 := { st with inputDisabled := true, sendDisabled := true }
  let st2 := appendMessageNode st1 input "user"
  let st3 := { st2 with inputValue := [] }
  appendMessageNode st3 (str "Typing...") "bot"

/-- The `innerHTML` written into the typing node for a given round-trip
outcome (lines 87-125); in the success-with-matches branch the header
is written and the buttons become children (`renderMatches`). -/
def resolvedHtml (out : HttpResult ChatData) : Str :=
  match out with
  | .netFail => errorMsg
  | .response false _ => errorMsg
  | .response true none => errorMsg
  | .response true (some data) =>
    match data.top_matches with
    | some l => if 0 < l.length then headerHtml else noAnswerMsg
    | none => noAnswerMsg

/-- Write the resolved content into the typing node. -/
def resolve (st : UI) (out : HttpResult ChatData) : UI :=
  { st with transcript :=
      setHtml st.transcript (st.transcript.length - 1) (resolvedHtml out) }

/-- `sendMessage` (src/static/js/script.js lines 72-126). -/
def sendMessage (st : UI) (out : HttpResult ChatData) : UI × Option Req :=
  let input := trimStr st.inputValue
  if input = [] then (st, none)
  else
    let stP := preRequest st input
    let stR := resolve stP out
    ({ stR with inputDisabled := false, sendDisabled := false, inputFocused := true },
     some { query := input, pdf_url := PDF_URL })

end StaticJs

namespace Part000

/-- POST body of src/unnamed/part_000: `{ question }`. -/
structure Req where
  question : Str
deriving DecidableEq, Repr

/-- `appendMessageNode` of src/unnamed/part_000 (lines 12-21): the
caller-supplied HTML is assigned verbatim for both senders; escaping
happens at the user-message call site. -/
def appendMessageNode (st : UI) (textHTML : Str) (sender : String) : UI :=
  { st with transcript := st.transcript ++ [{ sender := sender, html := textHTML }] }

/-- The fixed connectivity-error message of the `catch` branch. -/
def errorMsg : Str := str "⚠️ Unable to connect to the server. Please try again later."

/-- The `appendConfidence` annotation text (line 28). -/
def confNote (c : JsNum) : Str :=
  str "Confidence: " ++ toFixed1 (c * 100) ++ str "%"

/-- State after the code that runs before `fetch` (lines 34-42). -/
def preRequest (st : UI) (input : Str) : UI :=
  let st1 := { st with inputDisabled := true, sendDisabled := true }
  let st2 := appendMessageNode st1 (replaceAll (escapeHtml input) '\n' (str "<br>\n")) "user"
  let st3 := { st2 with inputValue := [] }
  appendMessageNode st3 (str "Typing...") "bot"

/-- Resolution of the round trip (lines 44-65): the toggle value is
computed (`const renderHtml = ...`, line 54) but never used — the
typing node always receives `data.answer || "No answer returned."`. -/
def resolve (toggle : Bool) (st : UI) (out : HttpResult AnswerData) : UI :=
  let idx := st.transcript.length - 1
  match out with
  | .netFail => { st with transcript := setHtml st.transcript idx errorMsg }
  | .response false _ => { st with transcript := setHtml st.transcript idx errorMsg }
  | .response true none => { st with transcript := setHtml st.transcript idx errorMsg }
  | .response true (some data) =>
    let renderHtml := toggle
    let st1 :=
      { st with transcript :=
          setHtml st.transcript idx (jsOrStr data.answer (str "No answer returned.")) }
    match data.confidence with
    | some c => { st1 with transcript := setNote st1.transcript idx (confNote c) }
    | none => st1

/-- `sendMessage` of src/unnamed/part_000 (lines 34-66); `toggle` is
the value of `renderToggle && renderToggle.checked`. -/
def sendMessage (toggle : Bool) (st : UI) (out : HttpResult AnswerData) : UI × Option Req :=
  let input := trimStr st.inputValue
  if input = [] then (st, none)
  else
    let stP := preRequest st input
    let stR := resolve toggle stP out
    ({ stR with inputDisabled := false, sendDisabled := false, inputFocused := true },
     some { question := input })

end Part000

namespace StaticV1

/-- The content the resolution step of the first script of
src/static/script.js writes into the last bot node for a given
round-trip outcome: there is NO `res.ok` check, so any response whose
body parses has `data.answer` rendered, whatever the status. -/
def resolvedHtml : HttpResult AnswerData → Str
  | .netFail => errorMsg
  | .response _ body =>
    match body with
    | none => errorMsg
    | some data => jsUndef data.answer

end StaticV1

namespace Part000

/-- The `innerHTML` written into the typing node of src/unnamed/part_000
for a given round-trip outcome. -/
def resolvedHtml : HttpResult AnswerData → Str
  | .netFail => errorMsg
  | .response false _ => errorMsg
  | .response true none => errorMsg
  | .response true (some data) => jsOrStr data.answer (str "No answer returned.")

/-- The confidence annotation attached to the typing node's row of
src/unnamed/part_000 for a given round-trip outcome. -/
def resolvedNote : HttpResult AnswerData → Option Str
  | .response true (some d) => d.confidence.map confNote
  | _ => none

end Part000

/-- `pendingCount` distributes over transcript concatenation. -/
theorem pendingCount_append (xs ys : List DomNode) :
    pendingCount (xs ++ ys) = pendingCount xs + pendingCount ys :=
  List.countP_append _ xs ys

/-- Single-character global replace distributes over concatenation. -/
theorem replaceAll_append (a b : Str) (pat : Char) (rep : Str) :
    replaceAll (a ++ b) pat rep = replaceAll a pat rep ++ replaceAll b pat rep := by
  induction a with
  | nil => simp [replaceAll]
  | cons c rest ih => simp [replaceAll, ih]

/-- `escapeHtml` distributes over concatenation. -/
theorem escapeHtml_append (a b : Str) :
    escapeHtml (a ++ b) = escapeHtml a ++ escapeHtml b := by
  simp [escapeHtml, replaceAll_append]

/-- On one character, the chained replaces of `escapeHtml` act exactly as
the per-character entity map (the `&` replace runs first, so the
ampersands introduced by the other entities are never re-escaped). -/
theorem escapeHtml_single (c : Char) : escapeHtml [c] = escChar c := by
  by_cases h1 : c = '&'
  · subst h1; decide
  · by_cases h2 : c = '<'
    · subst h2; decide
    · by_cases h3 : c = '>'
      · subst h3; decide
      · by_cases h4 : c = '"'
        · subst h4; decide
        · by_cases h5 : c = '\x27'
          · subst h5; decide
          · simp [escapeHtml, replaceAll, escChar, h1, h2, h3, h4, h5]

/-- `escapeHtml` is exactly the per-character entity map applied to
every character of the input. -/
theorem escapeHtml_eq_bind (s : Str) : escapeHtml s = s.flatMap escChar := by
  induction s with
  | nil => decide
  | cons c rest ih =>
    rw [show c :: rest = [c] ++ rest from rfl, escapeHtml_append, escapeHtml_single]
    simp [ih]

/-- The newline replace applied after escaping acts on each escaped
character as the user-text map (no entity contains a newline). -/
theorem replaceAll_nl_escChar (c : Char) :
    replaceAll (escChar c) '\n' (str "<br>\n") = userEscChar c := by
  by_cases h1 : c = '&'
  · subst h1; decide
  · by_cases h2 : c = '<'
    · subst h2; decide
    · by_cases h3 : c = '>'
      · subst h3; decide
      · by_cases h4 : c = '"'
        · subst h4; decide
        · by_cases h5 : c = '\x27'
          · subst h5; decide
          · by_cases h6 : c = '\n'
            · subst h6; decide
            · simp [escChar, userEscChar, replaceAll, h1, h2, h3, h4, h5, h6]

/-- The composite user-text rendering — escape, then convert newlines —
is exactly the per-character map `userEscChar` applied to every
character of the input. -/
theorem userRender_eq_bind (s : Str) :
    replaceAll (escapeHtml s) '\n' (str "<br>\n") = s.flatMap userEscChar := by
  induction s with
  | nil => decide
  | cons c rest ih =>
    rw [show c :: rest = [c] ++ rest from rfl, escapeHtml_append, replaceAll_append,
        escapeHtml_single, replaceAll_nl_escChar]
    simp [ih]

/-- An indexed button map yields one button per match. -/
theorem buttonsFromLabel_length (lab : Nat → MatchItem → Str) (l : List MatchItem) :
    ∀ k, (buttonsFromLabel lab k l).length = l.length := by
  induction l with
  | nil => intro k; rfl
  | cons m rest ih => intro k; simp [buttonsFromLabel, ih]

/-- The `i`-th button produced by an indexed button map carries index
`k + i` and the label computed from the `i`-th match. -/
theorem buttonsFromLabel_getD (lab : Nat → MatchItem → Str) (l : List MatchItem) :
    ∀ k i, i < l.length →
      (buttonsFromLabel lab k l).getD i bDflt = ⟨k + i, lab (k + i) (l.getD i mDflt)⟩ := by
  induction l with
  | nil => intro k i h; simp at h
  | cons m rest ih =>
    intro k i h
    cases i with
    | zero => simp [buttonsFromLabel]
    | succ j =>
      have hj : j < rest.length := by simpa using h
      have h2 := ih (k + 1) j hj
      rw [show k + 1 + j = k + (j + 1) by omega] at h2
      simpa [buttonsFromLabel] using h2

/-- The indices carried by an indexed button map are exactly the
interval `[k, k + length)`. -/
theorem buttonsFromLabel_mem_index (lab : Nat → MatchItem → Str) (l : List MatchItem) :
    ∀ k i, i ∈ (buttonsFromLabel lab k l).map BtnSpec.index ↔ k ≤ i ∧ i < k + l.length := by
  induction l with
  | nil => intro k i; simp [buttonsFromLabel]
  | cons m rest ih =>
    intro k i
    simp [buttonsFromLabel, ih (k + 1)]
    omega

/-- Writing the html of the node at position `|xs| + 1` of `xs ++ [a, b]`
rewrites `b` in place. -/
theorem setHtml_append_two (xs : List DomNode) (a b : DomNode) (h : Str) :
    setHtml (xs ++ [a, b]) (xs.length + 1) h = xs ++ [a, { b with html := h }] := by
  induction xs with
  | nil => rfl
  | cons x rest ih => simp [setHtml, ih]

/-- Writing the note of the node at position `|xs| + 1` of `xs ++ [a, b]`
rewrites `b` in place. -/
theorem setNote_append_two (xs : List DomNode) (a b : DomNode) (t : Str) :
    setNote (xs ++ [a, b]) (xs.length + 1) t = xs ++ [a, { b with note := some t }] := by
  induction xs with
  | nil => rfl
  | cons x rest ih => simp [setNote, ih]

/-- Rewriting the last bot node of `xs ++ [a, b]` rewrites `b` in place
when `b` is a bot node. -/
theorem setLastBotHtml_append_two (xs : List DomNode) (a b : DomNode) (h : Str)
    (hb : b.sender = "bot") :
    setLastBotHtml (xs ++ [a, b]) h = xs ++ [a, { b with html := h }] := by
  unfold setLastBotHtml
  rw [show xs ++ [a, b] = xs ++ [a] ++ [b] by simp]
  rw [List.reverse_append, List.reverse_append]
  simp [setFirstBot, hb]

/-- `setHtml` at the last position of a doubly-extended transcript, in
the exact shape produced by two `appendMessageNode` calls followed by
the resolution step. -/
theorem setHtml_last_two (xs : List DomNode) (a b : DomNode) (h : Str) :
    setHtml (xs ++ [a] ++ [b]) ((xs ++ [a] ++ [b]).length - 1) h
      = xs ++ [a, { b with html := h }] := by
  rw [show (xs ++ [a] ++ [b]).length - 1 = xs.length + 1 by simp,
    show xs ++ [a] ++ [b] = xs ++ [a, b] by simp, setHtml_append_two]

/-- `setNote` after `setHtml`, both at the last position of a
doubly-extended transcript, in the exact shape produced by the
confidence-annotating resolution steps. -/
theorem setNote_setHtml_last_two (xs : List DomNode) (a b : DomNode) (h c : Str) :
    setNote (setHtml (xs ++ [a] ++ [b]) ((xs ++ [a] ++ [b]).length - 1) h)
        ((xs ++ [a] ++ [b]).length - 1) c
      = xs ++ [a, { b with html := h, note := some c }] := by
  rw [setHtml_last_two, show (xs ++ [a] ++ [b]).length - 1 = xs.length + 1 by simp,
    show xs ++ [a, { b with html := h }] = xs ++ [a] ++ [{ b with html := h }] by simp,
    show xs ++ [a] ++ [{ b with html := h }] = xs ++ [a, { b with html := h }] by simp,
    setNote_append_two]

/-- Shape of the transcript after a full `AppChat.sendMessage` call with
non-empty trimmed input: the old transcript, the rendered user message,
and the typing node overwritten in place with the resolved content. -/
theorem appChat_sendMessage_transcript (st : UI) (out : HttpResult AppChat.ChatData)
    (h : trimStr st.inputValue ≠ []) :
    (AppChat.sendMessage st out).1.transcript
      = st.transcript ++
        [{ sender := "user", html := AppChat.renderContent (trimStr st.inputValue) "user" },
         { sender := "bot", html := AppChat.resolvedHtml out }] := by
  simp only [AppChat.sendMessage, AppChat.preRequest, AppChat.appendMessageNode,
    AppChat.resolve, if_neg h]
  rw [setHtml_last_two]

/-- Shape of the transcript after a full `StaticJs.sendMessage` call
with non-empty trimmed input. -/
theorem staticJs_sendMessage_transcript (st : UI) (out : HttpResult StaticJs.ChatData)
    (h : trimStr st.inputValue ≠ []) :
    (StaticJs.sendMessage st out).1.transcript
      = st.transcript ++
        [{ sender := "user", html := StaticJs.renderContent (trimStr st.inputValue) "user" },
         { sender := "bot", html := StaticJs.resolvedHtml out }] := by
  simp only [StaticJs.sendMessage, StaticJs.preRequest, StaticJs.appendMessageNode,
    StaticJs.resolve, if_neg h]
  rw [setHtml_last_two]

/-- Shape of the transcript after a full `Part000.sendMessage` call with
non-empty trimmed input: the typing node is overwritten in place and, on
success with a numeric confidence, annotated in place. -/
theorem part000_sendMessage_transcript (tg : Bool) (st : UI) (out : HttpResult AnswerData)
    (h : trimStr st.inputValue ≠ []) :
    (Part000.sendMessage tg st out).1.transcript
      = st.transcript ++
        [{ sender := "user",
           html := replaceAll (escapeHtml (trimStr st.inputValue)) '\n' (str "<br>\n") },
         { sender := "bot", html := Part000.resolvedHtml out,
           note := Part000.resolvedNote out }] := by
  simp only [Part000.sendMessage, Part000.preRequest, Part000.appendMessageNode, if_neg h]
  rcases out with _ | ⟨ok, body⟩
  · simp only [Part000.resolve]
    rw [setHtml_last_two]
    rfl
  · rcases body with _ | ⟨ans, conf⟩
    · cases ok <;> (simp only [Part000.resolve]; rw [setHtml_last_two]; rfl)
    · cases ok
      · simp only [Part000.resolve]
        rw [setHtml_last_two]
        rfl
      · rcases conf with _ | c
        · simp only [Part000.resolve]
          rw [setHtml_last_two]
          rfl
        · simp only [Part000.resolve]
          rw [setNote_setHtml_last_two]
          rfl

/-- The two branches of the render-html toggle of the second script of
src/static/script.js assign the same content, so `resolve` does not
depend on the toggle at all. -/
theorem staticV2_resolve_toggle (st : UI) (out : HttpResult AnswerData) :
    StaticV2.resolve true st out = StaticV2.resolve false st out := by
  rcases out with _ | ⟨ok, body⟩
  · rfl
  · rcases body with _ | ⟨ans, conf⟩
    · cases ok <;> rfl
    · cases ok
      · rfl
      · rcases conf with _ | c <;> rfl

/-- `StaticV2.resolve` only touches the transcript: the input value,
both disabled flags and the focus state pass through unchanged. -/
theorem staticV2_resolve_frame (tg : Bool) (st : UI) (out : HttpResult AnswerData) :
    (StaticV2.resolve tg st out).inputValue = st.inputValue ∧
    (StaticV2.resolve tg st out).inputDisabled = st.inputDisabled ∧
    (StaticV2.resolve tg st out).sendDisabled = st.sendDisabled ∧
    (StaticV2.resolve tg st out).inputFocused = st.inputFocused := by
  rcases out with _ | ⟨ok, body⟩
  · exact ⟨rfl, rfl, rfl, rfl⟩
  · rcases body with _ | ⟨ans, conf⟩
    · cases ok <;> exact ⟨rfl, rfl, rfl, rfl⟩
    · cases ok
      · exact ⟨rfl, rfl, rfl, rfl⟩
      · rcases conf with _ | c <;> cases tg <;> exact ⟨rfl, rfl, rfl, rfl⟩

/-- `Part000.resolve` only touches the transcript: the input value,
both disabled flags and the focus state pass through unchanged. -/
theorem part000_resolve_frame (tg : Bool) (st : UI) (out : HttpResult AnswerData) :
    (Part000.resolve tg st out).inputValue = st.inputValue ∧
    (Part000.resolve tg st out).inputDisabled = st.inputDisabled ∧
    (Part000.resolve tg st out).sendDisabled = st.sendDisabled ∧
    (Part000.resolve tg st out).inputFocused = st.inputFocused := by
  rcases out with _ | ⟨ok, body⟩
  · exact ⟨rfl, rfl, rfl, rfl⟩
  · rcases body with _ | ⟨ans, conf⟩
    · cases ok <;> exact ⟨rfl, rfl, rfl, rfl⟩
    · cases ok
      · exact ⟨rfl, rfl, rfl, rfl⟩
      · rcases conf with _ | c <;> exact ⟨rfl, rfl, rfl, rfl⟩

/-- "user" and "bot" are distinct row classes. -/
theorem beq_user_bot : (("user" : String) == "bot") = false := by decide

/-- A user message row is never a pending placeholder. -/
theorem pendingCount_userNode (uh : Str) (o : Option Str) :
    pendingCount [{ sender := "user", html := uh, note := o }] = 0 := by
  simp [pendingCount, List.countP_cons, beq_user_bot]

/-- A freshly appended "Typing..." bot row is one pending placeholder. -/
theorem pendingCount_typing :
    pendingCount [{ sender := "bot", html := str "Typing...", note := (none : Option Str) }]
      = 1 := by decide

/-- After the pre-request phase of `AppChat.sendMessage`, a transcript
with no pending placeholder has exactly one. -/
theorem appChat_preRequest_pending (st : UI) (input : Str)
    (hp : pendingCount st.transcript = 0) :
    pendingCount (AppChat.preRequest st input).transcript = 1 := by
  simp only [AppChat.preRequest, AppChat.appendMessageNode]
  rw [pendingCount_append, pendingCount_append, hp,
    show AppChat.renderContent (str "Typing...") "bot" = str "Typing..." from rfl,
    pendingCount_userNode, pendingCount_typing]

/-- After the pre-request phase of `Part000.sendMessage`, a transcript
with no pending placeholder has exactly one. -/
theorem part000_preRequest_pending (st : UI) (input : Str)
    (hp : pendingCount st.transcript = 0) :
    pendingCount (Part000.preRequest st input).transcript = 1 := by
  simp only [Part000.preRequest, Part000.appendMessageNode]
  rw [pendingCount_append, pendingCount_append, hp, pendingCount_userNode, pendingCount_typing]

/-- Claim C1 as stated is false: in the first script of
src/static/script.js (`appendMessage`), the user message "<img>" is
inserted into the transcript verbatim — the angle brackets are NOT
entity-escaped, unlike what the escaping map would produce. -/
theorem C1_counterexample :
    (StaticV1.sendMessage ⟨[], str "<img>", false, false, false⟩ .netFail).1.transcript.getD 0
        ⟨"", [], none⟩
      = ⟨"user", str "<img>", none⟩ ∧
    str "<img>" ≠ (str "<img>").flatMap userEscChar := by decide

/-- Claim C1 (amended): in the four variants that escape — app_chat,
static/js, the render-toggle script of static/script.js and part_000 —
rendered user content is exactly the input with every occurrence of the
five special characters entity-escaped and every newline turned into a
line break (`userEscChar` applied to each character), and bot content is
inserted verbatim; the first script of src/static/script.js inserts both
senders' content verbatim. -/
theorem C1_user_escaped_bot_verbatim (s : Str) (st : UI) :
    AppChat.renderContent s "user" = s.flatMap userEscChar ∧
    AppChat.renderContent s "bot" = s ∧
    StaticJs.renderContent s "user" = s.flatMap userEscChar ∧
    StaticJs.renderContent s "bot" = s ∧
    (StaticV2.preRequest st s).transcript
      = st.transcript ++ [⟨"user", s.flatMap userEscChar, none⟩,
                          ⟨"bot", str "Typing...", none⟩] ∧
    (Part000.preRequest st s).transcript
      = st.transcript ++ [⟨"user", s.flatMap userEscChar, none⟩,
                          ⟨"bot", str "Typing...", none⟩] ∧
    (∀ t : Str, ∀ sender : String,
      (StaticV1.appendMessage st t sender).transcript
        = st.transcript ++ [⟨sender, t, none⟩]) := by
  refine ⟨?_, rfl, ?_, rfl, ?_, ?_, fun t sender => rfl⟩
  · rw [show AppChat.renderContent s "user"
        = replaceAll (escapeHtml s) '\n' (str "<br>\n") from rfl, userRender_eq_bind]
  · rw [show StaticJs.renderContent s "user"
        = replaceAll (escapeHtml s) '\n' (str "<br>\n") from rfl, userRender_eq_bind]
  · simp [StaticV2.preRequest, StaticV2.appendMessageNode, userRender_eq_bind]
  · simp [Part000.preRequest, Part000.appendMessageNode, userRender_eq_bind]

/-- Claim C2 as stated is false: the first script of
src/static/script.js issues the request (a request body is produced)
without ever disabling the input or send control, and the input is not
refocused after the round trip settles. -/
theorem C2_counterexample :
    (StaticV1.sendMessage ⟨[], str "hi", false, false, false⟩ .netFail).2
      = some ⟨str "hi"⟩ ∧
    (StaticV1.sendMessage ⟨[], str "hi", false, false, false⟩ .netFail).1.inputDisabled
      = false ∧
    (StaticV1.sendMessage ⟨[], str "hi", false, false, false⟩ .netFail).1.sendDisabled
      = false ∧
    (StaticV1.sendMessage ⟨[], str "hi", false, false, false⟩ .netFail).1.inputFocused
      = false := by decide

/-- Claim C2 (amended): in app_chat, static/js, the render-toggle script
of static/script.js and part_000, both controls are disabled in the
pre-request phase, the resolution step never touches the disabled flags,
and after the round trip settles — in every outcome branch — both
controls are re-enabled and the input is refocused; the first script of
src/static/script.js never disables or re-enables anything. -/
theorem C2_disable_enable_roundtrip (st : UI) (tg : Bool)
    (outA : HttpResult AppChat.ChatData) (outJ : HttpResult StaticJs.ChatData)
    (outS outP : HttpResult AnswerData)
    (h : trimStr st.inputValue ≠ []) :
    ((AppChat.sendMessage st outA).1.inputDisabled = false ∧
     (AppChat.sendMessage st outA).1.sendDisabled = false ∧
     (AppChat.sendMessage st outA).1.inputFocused = true ∧
     (AppChat.sendMessage st outA).2.isSome = true ∧
     (AppChat.preRequest st (trimStr st.inputValue)).inputDisabled = true ∧
     (AppChat.preRequest st (trimStr st.inputValue)).sendDisabled = true ∧
     (∀ st2 : UI, (AppChat.resolve st2 outA).inputDisabled = st2.inputDisabled ∧
       (AppChat.resolve st2 outA).sendDisabled = st2.sendDisabled)) ∧
    ((StaticJs.sendMessage st outJ).1.inputDisabled = false ∧
     (StaticJs.sendMessage st outJ).1.sendDisabled = false ∧
     (StaticJs.sendMessage st outJ).1.inputFocused = true ∧
     (StaticJs.sendMessage st outJ).2.isSome = true ∧
     (StaticJs.preRequest st (trimStr st.inputValue)).inputDisabled = true ∧
     (StaticJs.preRequest st (trimStr st.inputValue)).sendDisabled = true ∧
     (∀ st2 : UI, (StaticJs.resolve st2 outJ).inputDisabled = st2.inputDisabled ∧
       (StaticJs.resolve st2 outJ).sendDisabled = st2.sendDisabled)) ∧
    ((StaticV2.sendMessage tg st outS).1.inputDisabled = false ∧
     (StaticV2.sendMessage tg st outS).1.sendDisabled = false ∧
     (StaticV2.sendMessage tg st outS).1.inputFocused = true ∧
     (StaticV2.sendMessage tg st outS).2.isSome = true ∧
     (StaticV2.preRequest st (trimStr st.inputValue)).inputDisabled = true ∧
     (StaticV2.preRequest st (trimStr st.inputValue)).sendDisabled = true ∧
     (∀ st2 : UI, (StaticV2.resolve tg st2 outS).inputDisabled = st2.inputDisabled ∧
       (StaticV2.resolve tg st2 outS).sendDisabled = st2.sendDisabled)) ∧
    ((Part000.sendMessage tg st outP).1.inputDisabled = false ∧
     (Part000.sendMessage tg st outP).1.sendDisabled = false ∧
     (Part000.sendMessage tg st outP).1.inputFocused = true ∧
     (Part000.sendMessage tg st outP).2.isSome = true ∧
     (Part000.preRequest st (trimStr st.inputValue)).inputDisabled = true ∧
     (Part000.preRequest st (trimStr st.inputValue)).sendDisabled = true ∧
     (∀ st2 : UI, (Part000.resolve tg st2 outP).inputDisabled = st2.inputDisabled ∧
       (Part000.resolve tg st2 outP).sendDisabled = st2.sendDisabled)) := by
  refine
    ⟨⟨?_, ?_, ?_, ?_, rfl, rfl, fun st2 => ⟨rfl, rfl⟩⟩,
     ⟨?_, ?_, ?_, ?_, rfl, rfl, fun st2 => ⟨rfl, rfl⟩⟩,
     ⟨?_, ?_, ?_, ?_, rfl, rfl, fun st2 =>
       ⟨(staticV2_resolve_frame tg st2 outS).2.1, (staticV2_resolve_frame tg st2 outS).2.2.1⟩⟩,
     ⟨?_, ?_, ?_, ?_, rfl, rfl, fun st2 =>
       ⟨(part000_resolve_frame tg st2 outP).2.1, (part000_resolve_frame tg st2 outP).2.2.1⟩⟩⟩ <;>
    simp [AppChat.sendMessage, StaticJs.sendMessage, StaticV2.sendMessage,
      Part000.sendMessage, if_neg h]

/-- Witness for C2 at a concrete run. -/
theorem C2_witness :
    trimStr (str "hi") ≠ [] ∧
    (AppChat.sendMessage ⟨[], str "hi", false, false, false⟩ .netFail).1.inputFocused = true :=
  ⟨by decide,
   (C2_disable_enable_roundtrip ⟨[], str "hi", false, false, false⟩ false
      .netFail .netFail .netFail .netFail (by decide)).1.2.2.1⟩

/-- Claim C3: in every variant, a whitespace-only (or empty) input makes
`sendMessage` a complete no-op — the state is returned unchanged and no
request body is produced. -/
theorem C3_empty_input_noop (st : UI) (tg : Bool)
    (outA : HttpResult AppChat.ChatData) (outJ : HttpResult StaticJs.ChatData)
    (outS outP outV : HttpResult AnswerData)
    (h : trimStr st.inputValue = []) :
    AppChat.sendMessage st outA = (st, none) ∧
    StaticV1.sendMessage st outV = (st, none) ∧
    StaticV2.sendMessage tg st outS = (st, none) ∧
    StaticJs.sendMessage st outJ = (st, none) ∧
    Part000.sendMessage tg st outP = (st, none) := by
  refine ⟨?_, ?_, ?_, ?_, ?_⟩ <;>
    simp [AppChat.sendMessage, StaticV1.sendMessage, StaticV2.sendMessage,
      StaticJs.sendMessage, Part000.sendMessage, if_pos h]

/-- Witness for C3 at a concrete whitespace-only input. -/
theorem C3_witness :
    trimStr (str " \n ") = [] ∧
    AppChat.sendMessage ⟨[], str " \n ", false, false, false⟩ .netFail
      = (⟨[], str " \n ", false, false, false⟩, none) :=
  ⟨by decide,
   (C3_empty_input_noop ⟨[], str " \n ", false, false, false⟩ false
      .netFail .netFail .netFail .netFail .netFail (by decide)).1⟩

/-- Claim C4: for a response with `top_matches` of length N > 0, both
multi-match variants replace the "Typing..." placeholder and render
exactly N clickable summaries; the i-th button (0-based index, 1-based
rank in its label) carries rank i+1, the i-th match's keyword and its
confidence as a one-decimal percentage, and clicking it reveals exactly
the i-th match's answer. -/
theorem C4_match_buttons (st : UI) (d : AppChat.ChatData) (dj : StaticJs.ChatData)
    (l : List MatchItem) (ms : List DomNode) (i : Nat)
    (hl : d.top_matches = some l) (hlj : dj.top_matches = some l)
    (hn : 0 < l.length) (hi : i < l.length)
    (hst : trimStr st.inputValue ≠ []) (ha : (l.getD i mDflt).answer ≠ []) :
    (AppChat.renderMatches d l).buttons.length = l.length ∧
    (StaticJs.renderMatches l).buttons.length = l.length ∧
    (AppChat.sendMessage st (.response true (some d))).1.transcript
      = st.transcript ++
        [{ sender := "user", html := AppChat.renderContent (trimStr st.inputValue) "user" },
         { sender := "bot", html := AppChat.matchesHtml d l }] ∧
    (StaticJs.sendMessage st (.response true (some dj))).1.transcript
      = st.transcript ++
        [{ sender := "user", html := StaticJs.renderContent (trimStr st.inputValue) "user" },
         { sender := "bot", html := StaticJs.headerHtml }] ∧
    ((AppChat.renderMatches d l).buttons.getD i bDflt).index = i ∧
    (natToStr (i + 1) ++ str ". ") <:+: ((AppChat.renderMatches d l).buttons.getD i bDflt).label ∧
    (l.getD i mDflt).keyword <:+: ((AppChat.renderMatches d l).buttons.getD i bDflt).label ∧
    (toFixed1 ((l.getD i mDflt).confidence * 100) ++ str "%")
      <:+: ((AppChat.renderMatches d l).buttons.getD i bDflt).label ∧
    AppChat.clickAnswer l (AppChat.renderMatches d l) i
      = ⟨AppChat.answerHtml (l.getD i mDflt), []⟩ ∧
    (l.getD i mDflt).answer <:+: AppChat.answerHtml (l.getD i mDflt) ∧
    ((StaticJs.renderMatches l).buttons.getD i bDflt).index = i ∧
    (str "Match " ++ natToStr (i + 1) ++ str ":")
      <:+: ((StaticJs.renderMatches l).buttons.getD i bDflt).label ∧
    (l.getD i mDflt).keyword <:+: ((StaticJs.renderMatches l).buttons.getD i bDflt).label ∧
    (toFixed1 ((l.getD i mDflt).confidence * 100) ++ str "%")
      <:+: ((StaticJs.renderMatches l).buttons.getD i bDflt).label ∧
    StaticJs.clickMatch l ms i
      = ms ++ [{ sender := "bot", html := StaticJs.showAnswerHtml (l.getD i mDflt) i }] ∧
    (l.getD i mDflt).answer <:+: StaticJs.showAnswerHtml (l.getD i mDflt) i := by
  have hA : (AppChat.renderMatches d l).buttons.getD i bDflt
      = ⟨i, AppChat.buttonLabel i (l.getD i mDflt)⟩ := by
    simpa using buttonsFromLabel_getD AppChat.buttonLabel l 0 i hi
  have hJ : (StaticJs.renderMatches l).buttons.getD i bDflt
      = ⟨i, StaticJs.buttonLabel i (l.getD i mDflt)⟩ := by
    simpa using buttonsFromLabel_getD StaticJs.buttonLabel l 0 i hi
  refine ⟨?_, ?_, ?_, ?_, ?_, ?_, ?_, ?_, ?_, ?_, ?_, ?_, ?_, ?_, rfl, ?_⟩
  · simpa using buttonsFromLabel_length AppChat.buttonLabel l 0
  · simpa using buttonsFromLabel_length StaticJs.buttonLabel l 0
  · rw [appChat_sendMessage_transcript st _ hst]
    simp [AppChat.resolvedHtml, hl, hn]
  · rw [staticJs_sendMessage_transcript st _ hst]
    simp [StaticJs.resolvedHtml, hlj, hn]
  · rw [hA]
  · rw [hA]
    exact ⟨str "\n              ",
      (l.getD i mDflt).keyword ++ str " (" ++
        toFixed1 ((l.getD i mDflt).confidence * 100) ++ str "%)\n            ",
      by simp [AppChat.buttonLabel]⟩
  · rw [hA]
    exact ⟨str "\n              " ++ natToStr (i + 1) ++ str ". ",
      str " (" ++ toFixed1 ((l.getD i mDflt).confidence * 100) ++ str "%)\n            ",
      by simp [AppChat.buttonLabel]⟩
  · rw [hA]
    refine ⟨str "\n              " ++ natToStr (i + 1) ++ str ". " ++
        (l.getD i mDflt).keyword ++ str " (",
      str ")\n            ", ?_⟩
    simp [AppChat.buttonLabel,
      show str "%)\n            " = str "%" ++ str ")\n            " from by decide]
  · have hmem : i ∈ (AppChat.renderMatches d l).buttons.map BtnSpec.index := by
      rw [show (AppChat.renderMatches d l).buttons = AppChat.buttonsOf l from rfl]
      exact (buttonsFromLabel_mem_index AppChat.buttonLabel l 0 i).2 ⟨Nat.zero_le i, by omega⟩
    simp [AppChat.clickAnswer, hmem]
  · exact ⟨str "\n          <b>📘 " ++ (l.getD i mDflt).keyword ++ str "</b><br><br>\n          ",
      str "\n        ", by simp [AppChat.answerHtml]⟩
  · rw [hJ]
  · rw [hJ]
    refine ⟨str "<b>",
      str "</b> " ++ (l.getD i mDflt).keyword ++ str " <small>(" ++
        toFixed1 ((l.getD i mDflt).confidence * 100) ++ str "%)</small>", ?_⟩
    simp [StaticJs.buttonLabel,
      show str "<b>Match " = str "<b>" ++ str "Match " from by decide,
      show str ":</b> " = str ":" ++ str "</b> " from by decide]
  · rw [hJ]
    exact ⟨str "<b>Match " ++ natToStr (i + 1) ++ str ":</b> ",
      str " <small>(" ++ toFixed1 ((l.getD i mDflt).confidence * 100) ++ str "%)</small>",
      by simp [StaticJs.buttonLabel]⟩
  · rw [hJ]
    refine ⟨str "<b>Match " ++ natToStr (i + 1) ++ str ":</b> " ++
        (l.getD i mDflt).keyword ++ str " <small>(",
      str ")</small>", ?_⟩
    simp [StaticJs.buttonLabel,
      show str "%)</small>" = str "%" ++ str ")</small>" from by decide]
  · have hs : StaticJs.showAnswerHtml (l.getD i mDflt) i
        = str "\n    <b>Match " ++ natToStr (i + 1) ++ str ":</b> " ++
          (l.getD i mDflt).keyword ++ str "<br><br>\n    " ++
          (l.getD i mDflt).answer ++ str "\n  " := by
      simp only [StaticJs.showAnswerHtml, if_neg ha]
    rw [hs]
    exact ⟨str "\n    <b>Match " ++ natToStr (i + 1) ++ str ":</b> " ++
        (l.getD i mDflt).keyword ++ str "<br><br>\n    ",
      str "\n  ", by simp⟩

/-- Witness for C4 at a concrete one-match response. -/
theorem C4_witness :
    trimStr (str "hi") ≠ [] ∧
    (AppChat.renderMatches ⟨some (str "doc.pdf"), some [⟨str "intro", ⟨87, 100⟩, str "Welcome!"⟩]⟩
        [⟨str "intro", ⟨87, 100⟩, str "Welcome!"⟩]).buttons.length
      = [(⟨str "intro", ⟨87, 100⟩, str "Welcome!"⟩ : MatchItem)].length :=
  ⟨by decide,
   (C4_match_buttons ⟨[], str "hi", false, false, false⟩
      ⟨some (str "doc.pdf"), some [⟨str "intro", ⟨87, 100⟩, str "Welcome!"⟩]⟩
      ⟨some [⟨str "intro", ⟨87, 100⟩, str "Welcome!"⟩]⟩
      [⟨str "intro", ⟨87, 100⟩, str "Welcome!"⟩] [] 0
      rfl rfl (by decide) (by decide) (by decide) (by decide)).1⟩

/-- Claim C5 as stated is false: in the app_chat variant, rendering a
two-match response gives a button with index 1, but clicking the button
with index 0 assigns `parentElement.innerHTML`, which replaces the whole
container content — afterwards no button is left, in particular the
other button (index 1) is gone. -/
theorem C5_counterexample :
    (1 : Nat) ∈ ((AppChat.renderMatches ⟨none, some [⟨str "k1", ⟨1, 2⟩, str "a1"⟩,
        ⟨str "k2", ⟨3, 10⟩, str "a2"⟩]⟩ [⟨str "k1", ⟨1, 2⟩, str "a1"⟩,
        ⟨str "k2", ⟨3, 10⟩, str "a2"⟩]).buttons.map BtnSpec.index) ∧
    AppChat.clickAnswer [⟨str "k1", ⟨1, 2⟩, str "a1"⟩, ⟨str "k2", ⟨3, 10⟩, str "a2"⟩]
        (AppChat.renderMatches ⟨none, some [⟨str "k1", ⟨1, 2⟩, str "a1"⟩,
          ⟨str "k2", ⟨3, 10⟩, str "a2"⟩]⟩ [⟨str "k1", ⟨1, 2⟩, str "a1"⟩,
          ⟨str "k2", ⟨3, 10⟩, str "a2"⟩]) 0
      = ⟨AppChat.answerHtml ⟨str "k1", ⟨1, 2⟩, str "a1"⟩, []⟩ ∧
    (1 : Nat) ∉ ((AppChat.clickAnswer [⟨str "k1", ⟨1, 2⟩, str "a1"⟩,
        ⟨str "k2", ⟨3, 10⟩, str "a2"⟩]
        (AppChat.renderMatches ⟨none, some [⟨str "k1", ⟨1, 2⟩, str "a1"⟩,
          ⟨str "k2", ⟨3, 10⟩, str "a2"⟩]⟩ [⟨str "k1", ⟨1, 2⟩, str "a1"⟩,
          ⟨str "k2", ⟨3, 10⟩, str "a2"⟩]) 0).buttons.map BtnSpec.index) := by decide

/-- Claim C5 (amended): in the static/js variant (`showAnswer`),
clicking a button only appends a fresh bot row with the clicked match's
answer — every existing transcript node (hence every button) is
preserved, and repeated clicks append the same content again
(repeatable reveal); in the app_chat variant, clicking replaces the
whole button container with the clicked match's answer, removing every
button. -/
theorem C5_click_reveal (l : List MatchItem) (d : AppChat.ChatData) (ms : List DomNode)
    (i : Nat) (hi : i < l.length) :
    StaticJs.clickMatch l ms i
      = ms ++ [{ sender := "bot", html := StaticJs.showAnswerHtml (l.getD i mDflt) i }] ∧
    (∀ j, j < ms.length →
      (StaticJs.clickMatch l ms i).getD j ⟨"", [], none⟩ = ms.getD j ⟨"", [], none⟩) ∧
    StaticJs.clickMatch l (StaticJs.clickMatch l ms i) i
      = ms ++ [{ sender := "bot", html := StaticJs.showAnswerHtml (l.getD i mDflt) i },
               { sender := "bot", html := StaticJs.showAnswerHtml (l.getD i mDflt) i }] ∧
    AppChat.clickAnswer l (AppChat.renderMatches d l) i
      = ⟨AppChat.answerHtml (l.getD i mDflt), []⟩ := by
  refine ⟨rfl, ?_, ?_, ?_⟩
  · intro j hj
    exact List.getD_append _ _ _ _ hj
  · show (ms ++ [_]) ++ [_] = _
    simp
  · have hmem : i ∈ (AppChat.renderMatches d l).buttons.map BtnSpec.index :=
      (buttonsFromLabel_mem_index AppChat.buttonLabel l 0 i).2 ⟨Nat.zero_le i, by omega⟩
    simp [AppChat.clickAnswer, hmem]

/-- Witness for C5 at a concrete two-match list. -/
theorem C5_witness :
    (0 : Nat) < [(⟨str "k1", ⟨1, 2⟩, str "a1"⟩ : MatchItem), ⟨str "k2", ⟨3, 10⟩, str "a2"⟩].length ∧
    StaticJs.clickMatch [⟨str "k1", ⟨1, 2⟩, str "a1"⟩, ⟨str "k2", ⟨3, 10⟩, str "a2"⟩] [] 0
      = [] ++ [{ sender := "bot",
                 html := StaticJs.showAnswerHtml
                   ([(⟨str "k1", ⟨1, 2⟩, str "a1"⟩ : MatchItem),
                     ⟨str "k2", ⟨3, 10⟩, str "a2"⟩].getD 0 mDflt) 0 }] :=
  ⟨by decide,
   (C5_click_reveal [⟨str "k1", ⟨1, 2⟩, str "a1"⟩, ⟨str "k2", ⟨3, 10⟩, str "a2"⟩]
      ⟨none, some [⟨str "k1", ⟨1, 2⟩, str "a1"⟩, ⟨str "k2", ⟨3, 10⟩, str "a2"⟩]⟩ [] 0
      (by decide)).1⟩

/-- Claim C6 as stated is false: the first script of
src/static/script.js does no `res.ok` check, so a non-success response
whose body parses as JSON has its `answer` field rendered into the
placeholder — part of the response body is shown, and the outcome
differs from a thrown network error. -/
theorem C6_counterexample :
    (StaticV1.sendMessage ⟨[], str "hi", false, false, false⟩
        (.response false (some ⟨some (str "internal error page"), none⟩))).1.transcript
      = [⟨"user", str "hi", none⟩, ⟨"bot", str "internal error page", none⟩] ∧
    StaticV1.sendMessage ⟨[], str "hi", false, false, false⟩
        (.response false (some ⟨some (str "internal error page"), none⟩))
      ≠ StaticV1.sendMessage ⟨[], str "hi", false, false, false⟩ .netFail := by decide

/-- Claim C6 (amended): in the four `res.ok`-checking variants, a
completed response with a non-success status produces exactly the same
state and request as a rejected fetch, whatever the body; in the first
script of src/static/script.js the status is ignored entirely — a
parseable body is rendered the same way whether the status is a success
or not. -/
theorem C6_non_ok_equals_network_error (st : UI) (tg : Bool)
    (bA : Option AppChat.ChatData) (bJ : Option StaticJs.ChatData)
    (bS bP : Option AnswerData) (ans : Str) (cf : Option JsNum) :
    AppChat.sendMessage st (.response false bA) = AppChat.sendMessage st .netFail ∧
    StaticJs.sendMessage st (.response false bJ) = StaticJs.sendMessage st .netFail ∧
    StaticV2.sendMessage tg st (.response false bS) = StaticV2.sendMessage tg st .netFail ∧
    Part000.sendMessage tg st (.response false bP) = Part000.sendMessage tg st .netFail ∧
    StaticV1.sendMessage st (.response false (some ⟨some ans, cf⟩))
      = StaticV1.sendMessage st (.response true (some ⟨some ans, cf⟩)) :=
  ⟨rfl, rfl, rfl, rfl, rfl⟩

/-- Claim C7: in both multi-match variants, a successful response whose
`top_matches` is absent or empty replaces the "Typing..." placeholder
with that variant's fixed "no relevant answer" message, and nothing else
is appended to the transcript. -/
theorem C7_zero_matches_message (st : UI) (dA : AppChat.ChatData) (dJ : StaticJs.ChatData)
    (h : trimStr st.inputValue ≠ [])
    (hA : dA.top_matches = none ∨ dA.top_matches = some [])
    (hJ : dJ.top_matches = none ∨ dJ.top_matches = some []) :
    (AppChat.sendMessage st (.response true (some dA))).1.transcript
      = st.transcript ++
        [{ sender := "user", html := AppChat.renderContent (trimStr st.inputValue) "user" },
         { sender := "bot", html := AppChat.noAnswerMsg }] ∧
    (StaticJs.sendMessage st (.response true (some dJ))).1.transcript
      = st.transcript ++
        [{ sender := "user", html := StaticJs.renderContent (trimStr st.inputValue) "user" },
         { sender := "bot", html := StaticJs.noAnswerMsg }] := by
  constructor
  · rw [appChat_sendMessage_transcript st _ h]
    rcases hA with hA | hA <;> simp [AppChat.resolvedHtml, hA]
  · rw [staticJs_sendMessage_transcript st _ h]
    rcases hJ with hJ | hJ <;> simp [StaticJs.resolvedHtml, hJ]

/-- Witness for C7 at a concrete zero-match response. -/
theorem C7_witness :
    trimStr (str "hi") ≠ [] ∧
    (AppChat.sendMessage ⟨[], str "hi", false, false, false⟩
        (.response true (some ⟨none, none⟩))).1.transcript
      = ([] : List DomNode) ++
        [{ sender := "user", html := AppChat.renderContent (trimStr (str "hi")) "user" },
         { sender := "bot", html := AppChat.noAnswerMsg }] :=
  ⟨by decide,
   (C7_zero_matches_message ⟨[], str "hi", false, false, false⟩ ⟨none, none⟩ ⟨some []⟩
      (by decide) (Or.inl rfl) (Or.inr rfl)).1⟩

/-- Claim C8: in app_chat and part_000, a call with non-empty trimmed
input appends exactly one user node and one bot node (the placeholder),
the placeholder is overwritten in place (total growth is exactly two
nodes), and between submission and resolution exactly one pending
"Typing..." placeholder exists when none was pending before. -/
theorem C8_exactly_one_pair (st : UI) (tg : Bool)
    (outA : HttpResult AppChat.ChatData) (outP : HttpResult AnswerData)
    (h : trimStr st.inputValue ≠ []) (hp : pendingCount st.transcript = 0) :
    pendingCount (AppChat.preRequest st (trimStr st.inputValue)).transcript = 1 ∧
    (AppChat.sendMessage st outA).1.transcript
      = st.transcript ++
        [{ sender := "user", html := AppChat.renderContent (trimStr st.inputValue) "user" },
         { sender := "bot", html := AppChat.resolvedHtml outA }] ∧
    (AppChat.sendMessage st outA).1.transcript.length = st.transcript.length + 2 ∧
    pendingCount (Part000.preRequest st (trimStr st.inputValue)).transcript = 1 ∧
    (Part000.sendMessage tg st outP).1.transcript
      = st.transcript ++
        [{ sender := "user",
           html := replaceAll (escapeHtml (trimStr st.inputValue)) '\n' (str "<br>\n") },
         { sender := "bot", html := Part000.resolvedHtml outP,
           note := Part000.resolvedNote outP }] ∧
    (Part000.sendMessage tg st outP).1.transcript.length = st.transcript.length + 2 := by
  refine ⟨appChat_preRequest_pending st _ hp, appChat_sendMessage_transcript st outA h, ?_,
    part000_preRequest_pending st _ hp, part000_sendMessage_transcript tg st outP h, ?_⟩
  · rw [appChat_sendMessage_transcript st outA h]; simp
  · rw [part000_sendMessage_transcript tg st outP h]; simp

/-- Witness for C8 at a concrete run from an empty transcript. -/
theorem C8_witness :
    trimStr (str "hi") ≠ [] ∧
    pendingCount (⟨[], str "hi", false, false, false⟩ : UI).transcript = 0 ∧
    pendingCount (AppChat.preRequest ⟨[], str "hi", false, false, false⟩
        (trimStr (str "hi"))).transcript = 1 :=
  ⟨by decide, by decide,
   (C8_exactly_one_pair ⟨[], str "hi", false, false, false⟩ false .netFail .netFail
      (by decide) (by decide)).1⟩

/-- The toggle value computed in src/unnamed/part_000 is never used, so
`resolve` does not depend on it. -/
theorem part000_resolve_toggle (st : UI) (out : HttpResult AnswerData) :
    Part000.resolve true st out = Part000.resolve false st out := by
  rcases out with _ | ⟨ok, body⟩
  · rfl
  · rcases body with _ | ⟨ans, conf⟩
    · cases ok <;> rfl
    · cases ok
      · rfl
      · rcases conf with _ | c <;> rfl

/-- Claim C9: in the two variants that read the render-html-toggle
checkbox, the entire outcome of `sendMessage` — transcript content
included — is independent of the toggle's state. -/
theorem C9_toggle_independent (st : UI) (outS outP : HttpResult AnswerData) :
    StaticV2.sendMessage true st outS = StaticV2.sendMessage false st outS ∧
    Part000.sendMessage true st outP = Part000.sendMessage false st outP := by
  constructor
  · by_cases h : trimStr st.inputValue = []
    · simp [StaticV2.sendMessage, if_pos h]
    · simp only [StaticV2.sendMessage, if_neg h]
      rw [staticV2_resolve_toggle]
  · by_cases h : trimStr st.inputValue = []
    · simp [Part000.sendMessage, if_pos h]
    · simp only [Part000.sendMessage, if_neg h]
      rw [part000_resolve_toggle]

/-- Claim C10: in every variant, the input field is cleared right after
the user message is appended — before the request is issued — and no
outcome branch ever restores the previous value. -/
theorem C10_input_cleared (st : UI) (tg : Bool)
    (outA : HttpResult AppChat.ChatData) (outJ : HttpResult StaticJs.ChatData)
    (outS outP outV : HttpResult AnswerData)
    (h : trimStr st.inputValue ≠ []) :
    (AppChat.preRequest st (trimStr st.inputValue)).inputValue = [] ∧
    (AppChat.sendMessage st outA).1.inputValue = [] ∧
    (StaticJs.preRequest st (trimStr st.inputValue)).inputValue = [] ∧
    (StaticJs.sendMessage st outJ).1.inputValue = [] ∧
    (StaticV2.preRequest st (trimStr st.inputValue)).inputValue = [] ∧
    (StaticV2.sendMessage tg st outS).1.inputValue = [] ∧
    (Part000.preRequest st (trimStr st.inputValue)).inputValue = [] ∧
    (Part000.sendMessage tg st outP).1.inputValue = [] ∧
    (StaticV1.sendMessage st outV).1.inputValue = [] := by
  have h1 : (AppChat.preRequest st (trimStr st.inputValue)).inputValue = [] := by rfl
  have h2 : (AppChat.sendMessage st outA).1.inputValue = [] := by
    simp [AppChat.sendMessage, if_neg h, AppChat.resolve, AppChat.preRequest,
      AppChat.appendMessageNode]
  have h3 : (StaticJs.preRequest st (trimStr st.inputValue)).inputValue = [] := by rfl
  have h4 : (StaticJs.sendMessage st outJ).1.inputValue = [] := by
    simp [StaticJs.sendMessage, if_neg h, StaticJs.resolve, StaticJs.preRequest,
      StaticJs.appendMessageNode]
  have h5 : (StaticV2.preRequest st (trimStr st.inputValue)).inputValue = [] := by rfl
  have h6 : (StaticV2.sendMessage tg st outS).1.inputValue = [] := by
    simp only [StaticV2.sendMessage, if_neg h]
    rw [(staticV2_resolve_frame tg _ outS).1]
    rfl
  have h7 : (Part000.preRequest st (trimStr st.inputValue)).inputValue = [] := by rfl
  have h8 : (Part000.sendMessage tg st outP).1.inputValue = [] := by
    simp only [Part000.sendMessage, if_neg h]
    rw [(part000_resolve_frame tg _ outP).1]
    rfl
  have h9 : (StaticV1.sendMessage st outV).1.inputValue = [] := by
    rcases outV with _ | ⟨ok, body⟩
    · simp [StaticV1.sendMessage, if_neg h, StaticV1.appendMessage, setLastBotHtml]
    · rcases body with _ | d <;>
        simp [StaticV1.sendMessage, if_neg h, StaticV1.appendMessage, setLastBotHtml]
  exact ⟨h1, h2, h3, h4, h5, h6, h7, h8, h9⟩

/-- Witness for C10 at a concrete run. -/
theorem C10_witness :
    trimStr (str "hi") ≠ [] ∧
    (AppChat.preRequest ⟨[], str "hi", false, false, false⟩ (trimStr (str "hi"))).inputValue
      = [] :=
  ⟨by decide,
   (C10_input_cleared ⟨[], str "hi", false, false, false⟩ false .netFail .netFail
      .netFail .netFail .netFail (by decide)).1⟩
